import Mathlib

/-!
Verification of the download orchestration and result-classification logic of
`video_downloader_mac.js` (a JXA script driving `yt-dlp`).

The JavaScript source is shallowly embedded: JS strings become Lean `String`
(with custom character-list operations, since the script only relies on exact
code-point behaviour), JS `undefined`/missing values become `Option`, desktop
side effects (notifications, dialogs) and subprocess invocations become an
explicit event trace, and the ambient platform capabilities (browser URL,
executable lookup, shell execution, metadata fetch) become fields of an
environment record that the embedded `run` consumes.
-/

/-! ## Generic string helpers used by the embedding -/

/-- All characters of a string, lowercased; models `String.prototype.toLowerCase`
and the `/i` regex flag for the ASCII patterns the script uses. -/
def toLowerList (s : String) : List Char :=
  s.data.map Char.toLower

/-- Exact (case-sensitive) substring test; models `String.prototype.includes`. -/
def containsStr (s pat : String) : Bool :=
  decide (pat.data <:+: s.data)

/-- Case-insensitive substring test; models `/pat/i.test(s)` for a regex that is
a literal string. -/
def ciContains (s pat : String) : Bool :=
  decide (toLowerList pat <:+: toLowerList s)

/-- Whitespace characters removed by `String.prototype.trim` (the script only
ever meets ASCII whitespace). -/
def isJsSpace (c : Char) : Bool :=
  c == ' ' || c == '\t' || c == '\n' || c == '\r'

/-- Remove leading and trailing whitespace from a character list. -/
def trimList (l : List Char) : List Char :=
  ((l.dropWhile isJsSpace).reverse.dropWhile isJsSpace).reverse

/-- Models `String.prototype.trim`. -/
def trimString (s : String) : String :=
  String.mk (trimList s.data)

/-- Split a character list at a separator character; models
`String.prototype.split` with a one-character separator. -/
def splitOnChar (sep : Char) (l : List Char) : List (List Char) :=
  match l with
  | [] => [[]]
  | c :: rest =>
    match splitOnChar sep rest with
    | [] => [[]]
    | piece :: pieces => if c == sep then [] :: piece :: pieces else (c :: piece) :: pieces

/-- Models `s.split("/").pop()`: the part of `s` after the last `/`
(the whole of `s` when it has no `/`). -/
def lastAfterSlash (s : String) : String :=
  String.mk ((splitOnChar '/' s.data).getLastD [])

/-- JS `x || d` for a possibly-missing string `x`: `undefined` and the empty
string are falsy. -/
def jsOrD (v : Option String) (d : String) : String :=
  match v with
  | none => d
  | some s => if s = "" then d else s

/-- JS falsiness of a possibly-missing string (`!x`). -/
def isFalsyOpt (v : Option String) : Bool :=
  match v with
  | none => true
  | some s => s = ""

/-- `Array.prototype.map` with the element index available to the callback,
starting from index `i`. -/
def mapWithIndexFrom (f : Nat → α → β) (i : Nat) : List α → List β
  | [] => []
  | a :: l => f i a :: mapWithIndexFrom f (i + 1) l

/-! ## Data model -/

/-- Result of one shell invocation: combined stdout/stderr text and exit code
(`executeShellCommand` in the source collapses a thrown error into this shape). -/
structure ShellResult where
  output : String
  exitCode : Int
deriving DecidableEq, Repr

/-- A downloadable video entry (`VideoEntry` typedef in the source).
`url` is `Option` because the JSON field may be absent; `playlist_title`
is read by `downloadVideoEntry` but never set by this version of the script. -/
structure VideoEntry where
  url : Option String
  title : String
  playlist_title : Option String
deriving DecidableEq, Repr

/-- Result of metadata resolution (`VideoInfo` typedef in the source). -/
structure VideoInfo where
  title : String
  isPlaylist : Bool
  entries : List VideoEntry
  webpage_url : Option String
deriving DecidableEq, Repr

/-- One member entry of the parsed metadata JSON. The script reads only `url`
and `title`; `id` is carried to state claims about it. -/
structure RawEntry where
  url : Option String
  title : Option String
  id : Option String
deriving DecidableEq, Repr

/-- The parsed metadata JSON object, restricted to the fields the script reads.
`_type` is the JSON `_type` tag; `entries` is `some` exactly when the JSON has
an `entries` array (an empty array is truthy in JS). -/
structure ParsedInfo where
  _type : Option String
  title : Option String
  webpage_url : Option String
  entries : Option (List RawEntry)
deriving DecidableEq, Repr

/-- Outcome of the metadata subprocess-and-parse sequence feeding
`getVideoOrPlaylistInfo`: the command succeeded and its JSON parsed (`ok`),
the JSON failed to parse (`parseFailed`), the command exited non-zero or
produced empty output (`cmdFailed`), or an unexpected exception occurred
(`exception`). -/
inductive FetchResult where
  | ok (info : ParsedInfo)
  | parseFailed
  | cmdFailed
  | exception
deriving DecidableEq, Repr

/-- Classified status of one download attempt. -/
inductive Status where
  | Success
  | AlreadyDownloaded
  | Unsupported
  | Failed
deriving DecidableEq, Repr

/-- A classified download outcome: status plus the human-readable detail the
script surfaces (filename or title for success paths, raw output for errors). -/
structure DownloadOutcome where
  status : Status
  detail : String
deriving DecidableEq, Repr

/-- The four options recognised by `parseInputArguments`. -/
structure ParsedArgs where
  downloadDir : Option String
  fileNameTemplate : Option String
  downloadArchive : Option String
  cookiesFromBrowser : Option String
deriving DecidableEq, Repr

/-- Observable side effects of a run: user-facing notifications
(`showNotification`), dialogs (`showErrorDialog`), subprocess invocations and,
as an instrumentation marker, each call of `downloadVideoEntry`. -/
inductive Event where
  | notify (title message subtitle : String)
  | alert (title message severity : String)
  | shellCmd (command : String)
  | execDownload (entry : VideoEntry) (outputTemplate : String)
deriving DecidableEq, Repr

/-- Ambient platform capabilities consumed by `run`, made explicit:
the active browser tab URL, executable resolution, the Automator input
(`none` models a non-array input), the expanded `$HOME/Downloads`, the outcome
of the metadata fetch for the initial URL, and the shell used for download
commands. -/
structure Env where
  browserUrl : Option String
  resolve : String → Option String
  input : Option (List String)
  homeDownloads : String
  fetch : FetchResult
  shell : String → ShellResult

/-! ## Embedded source definitions -/

/-- `DEFAULT_FILENAME_TEMPLATE_SINGLE` (source line 30). -/
def DEFAULT_FILENAME_TEMPLATE_SINGLE : String := "%(title)s.%(ext)s"

/-- `DEFAULT_FILENAME_TEMPLATE_PLAYLIST_ITEM` (source line 36). -/
def DEFAULT_FILENAME_TEMPLATE_PLAYLIST_ITEM : String := "%(playlist_index& - |)s%(title)s.%(ext)s"

/-- The character class `[\/\\:;\*\?"<>\|]` of `sanitizeFolderName`. -/
def forbiddenChars : List Char := ['/', '\\', ':', ';', '*', '?', '"', '<', '>', '|']

/-- `sanitizeFolderName` (source lines 43-48). `none` models a missing or
non-string argument; the JS guard `!folderName` also catches the empty string. -/
def sanitizeFolderName (folderName : Option String) : String :=
  match folderName with
  | none => "Untitled_Folder"
  | some s =>
    if s = "" then "Untitled_Folder"
    else
      let replaced := String.mk (s.data.map (fun c => if c ∈ forbiddenChars then '_' else c))
      let trimmed := trimString replaced
      if trimmed = "" then "Untitled_Folder" else trimmed

/-- `executeShellCommand` (source lines 115-125): appends `2>&1` and runs the
command; the catch branch (non-zero exit) is folded into the shell oracle. -/
def executeShellCommand (doShellScript : String → ShellResult) (commandToExecute : String) : ShellResult :=
  doShellScript (commandToExecute ++ " 2>&1")

/-- The lazy capture of `/\[download\] (.*?) has already been downloaded/` at a
fixed start: the shortest newline-free prefix of `l` followed by the literal
suffix `" has already been downloaded"`. -/
def findCapture (l : List Char) : Option (List Char) :=
  if (" has already been downloaded".data).isPrefixOf l then some []
  else
    match l with
    | [] => none
    | c :: rest =>
      if c == '\n' || c == '\r' then none
      else (findCapture rest).map (fun cap => c :: cap)

/-- Leftmost match of `/\[download\] (.*?) has already been downloaded/`:
scan every start position, and at the first position where the literal
`"[download] "` matches and a capture completes, return that capture. -/
def firstAlreadyMatch : List Char → Option (List Char)
  | [] => none
  | c :: rest =>
    if ("[download] ".data).isPrefixOf (c :: rest) then
      match findCapture ((c :: rest).drop "[download] ".data.length) with
      | some cap => some cap
      | none => firstAlreadyMatch rest
    else firstAlreadyMatch rest

/-- `commandOutput.match(/\[download\] (.*?) has already been downloaded/)`
(source line 250), returning the first capture group. -/
def alreadyDownloadedMatch (commandOutput : String) : Option String :=
  (firstAlreadyMatch commandOutput.data).map String.mk

/-- The Outcome Classifier: the branch structure of `downloadVideoEntry` on the
captured output and exit code (source lines 248-270), with the identifier each
branch surfaces recorded as `detail` (the already-downloaded filename with the
`|| entryTitle` fallback, the known title on plain success, the full raw output
on failure, nothing for an unsupported URL). -/
def classify (commandOutput : String) (exitCode : Int) (entryTitle : String) : DownloadOutcome :=
  if exitCode = 0 then
    match alreadyDownloadedMatch commandOutput with
    | some cap =>
      let alreadyDownloadedTitle := trimString (lastAfterSlash cap)
      ⟨.AlreadyDownloaded, if alreadyDownloadedTitle = "" then entryTitle else alreadyDownloadedTitle⟩
    | none => ⟨.Success, entryTitle⟩
  else
    if ciContains commandOutput "Unsupported URL" then ⟨.Unsupported, ""⟩
    else ⟨.Failed, commandOutput⟩

/-- The `ytDlpArgs` list of `downloadVideoEntry` joined into the command string
(source lines 233-244): empty optional flags are filtered out before joining. -/
def downloadCmd (entryUrl ytDlpPath ffmpegPath finalOutputTemplate : String)
    (downloadArchive cookiesFromBrowser : Option String) : String :=
  let ytDlpArgs : List String := [
    "\"" ++ ytDlpPath ++ "\"",
    "--ffmpeg-location \"" ++ ffmpegPath ++ "\"",
    "-S codec:avc:aac,res:1080,fps:60,hdr:sdr",
    "-f bv+ba/b",
    "-o \"" ++ finalOutputTemplate ++ "\"",
    "--ppa \"Merger+ffmpeg_o1:-map_metadata -1\"",
    (match downloadArchive with
     | some a => if a = "" then "" else "--download-archive \"" ++ a ++ "\""
     | none => ""),
    (match cookiesFromBrowser with
     | some c => if c = "" then "" else "--cookies-from-browser \"" ++ c ++ "\""
     | none => ""),
    "\"" ++ entryUrl ++ "\""]
  String.intercalate " " (ytDlpArgs.filter (fun arg => arg ≠ ""))

/-- `downloadVideoEntry` (source lines 210-271): returns the JS boolean result
together with the trace of its side effects. -/
def downloadVideoEntry (videoEntry : VideoEntry) (ytDlpPath ffmpegPath finalOutputTemplate : String)
    (downloadArchive cookiesFromBrowser : Option String)
    (doShellScript : String → ShellResult) : Bool × List Event :=
  let entryTitle := if videoEntry.title = "" then "無題の動画" else videoEntry.title
  if isFalsyOpt videoEntry.url then
    (false, [.alert "ダウンロードエラー"
      ("動画「" ++ entryTitle ++ "」のURLが見つかりません。スキップします。") "warning"])
  else
    let entryUrl := videoEntry.url.getD ""
    let startNotificationMessage :=
      match videoEntry.playlist_title with
      | some pt =>
        if pt = "" then "対象: " ++ entryTitle
        else "プレイリスト「" ++ pt ++ "」より\n対象: " ++ entryTitle
      | none => "対象: " ++ entryTitle
    let startEv := Event.notify "yt-dlp ダウンロード開始" startNotificationMessage "処理を開始します..."
    let commandToExecute :=
      downloadCmd entryUrl ytDlpPath ffmpegPath finalOutputTemplate downloadArchive cookiesFromBrowser
    let r := executeShellCommand doShellScript commandToExecute
    if r.exitCode = 0 then
      let successMessage :=
        match alreadyDownloadedMatch r.output with
        | some cap =>
          let alreadyDownloadedTitle := trimString (lastAfterSlash cap)
          "「" ++ (if alreadyDownloadedTitle = "" then entryTitle else alreadyDownloadedTitle) ++
            "」は既にダウンロード済みです。"
        | none => "「" ++ entryTitle ++ "」のダウンロードが完了しました。"
      (true, [startEv, .shellCmd commandToExecute, .notify "yt-dlp ダウンロード成功" successMessage ""])
    else
      if ciContains r.output "Unsupported URL" then
        (false, [startEv, .shellCmd commandToExecute,
          .notify "yt-dlp 情報" ("「" ++ entryTitle ++ "」:\nサポートされていないURLです。") entryUrl])
      else
        (false, [startEv, .shellCmd commandToExecute,
          .alert ("yt-dlp/シェル エラー (コード: " ++ toString r.exitCode ++ ") - " ++ entryTitle)
            ("動画「" ++ entryTitle ++ "」のダウンロード中にエラーが発生した。\nURL: " ++ entryUrl ++
              "\n\nエラー出力:\n" ++ r.output) "critical"])

/-- The scanning loop of `parseInputArguments` (source lines 288-302).
A lone final token can never fire a branch because every branch requires
`i + 1 < inputArgs.length`; a matched flag consumes the following token. -/
def parseLoopAux : Nat → List String → ParsedArgs → ParsedArgs
  | 0, _, acc => acc
  | _ + 1, [], acc => acc
  | _ + 1, [_], acc => acc
  | fuel + 1, x :: y :: rest, acc =>
    if x = "-d" then parseLoopAux fuel rest { acc with downloadDir := some y }
    else if x = "-f" then parseLoopAux fuel rest { acc with fileNameTemplate := some y }
    else if x = "-a" then parseLoopAux fuel rest { acc with downloadArchive := some y }
    else if x = "-c" then parseLoopAux fuel rest { acc with cookiesFromBrowser := some y }
    else parseLoopAux fuel (y :: rest) acc

/-- The scanning loop applied to a token list. Every step consumes at least one
token and one unit of fuel, so fuel equal to the list length never runs out and
the fuel-0 case is unreachable. -/
def parseLoop (l : List String) (acc : ParsedArgs) : ParsedArgs :=
  parseLoopAux l.length l acc

/-- `parseInputArguments` (source lines 278-304); `none` models a non-array
input, for which all four options stay `null`. -/
def parseInputArguments (inputArgs : Option (List String)) : ParsedArgs :=
  match inputArgs with
  | none => ⟨none, none, none, none⟩
  | some args => parseLoop args ⟨none, none, none, none⟩

/-- `getVideoOrPlaylistInfo` (source lines 148-198), with the subprocess-and-
parse sequence abstracted into a `FetchResult`. In the playlist branch each
entry keeps its raw `url` verbatim and gets a per-index placeholder title when
its own is falsy; in the single branch `webpage_url` is copied without
fallback. The three failure branches set the three sentinel titles. -/
def getVideoOrPlaylistInfo (targetUrl : String) (fetch : FetchResult) : VideoInfo :=
  match fetch with
  | .ok parsedInfo =>
    if parsedInfo._type = some "playlist" ∨ parsedInfo.entries.isSome then
      { title := jsOrD parsedInfo.title "無題のプレイリスト"
        isPlaylist := true
        webpage_url := some (jsOrD parsedInfo.webpage_url targetUrl)
        entries := mapWithIndexFrom
          (fun index entry =>
            { url := entry.url
              title := jsOrD entry.title ("無題の動画 " ++ toString (index + 1))
              playlist_title := none })
          0 (parsedInfo.entries.getD []) }
    else
      { title := jsOrD parsedInfo.title "無題の動画"
        isPlaylist := false
        entries := []
        webpage_url := parsedInfo.webpage_url }
  | .parseFailed =>
    { title := "タイトル情報パース失敗", isPlaylist := false, entries := [], webpage_url := some targetUrl }
  | .cmdFailed =>
    { title := "タイトル情報取得失敗", isPlaylist := false, entries := [], webpage_url := some targetUrl }
  | .exception =>
    { title := "タイトル情報取得エラー", isPlaylist := false, entries := [], webpage_url := some targetUrl }

/-- The fetch-failure test of `run` (source line 374):
`videoInfo.title.includes("取得失敗") || videoInfo.title.includes("パース失敗")`. -/
def isFetchFailedTitle (title : String) : Bool :=
  containsStr title "取得失敗" || containsStr title "パース失敗"

/-- `findExec` (source lines 311-338) with the filesystem probing abstracted
into the `resolve` oracle: on failure it shows the blocking error dialog. -/
def findExec (resolve : String → Option String) (name : String) : Option String × List Event :=
  match resolve name with
  | some path => (some path, [])
  | none =>
    (none, [.alert (name ++ " 実行エラー")
      (name ++ " が見つかりませんでした。\n\nHomebrew等で " ++ name ++
        " が正しくインストールされているか確認してください。") "critical"])

/-- The playlist loop of `run` (source lines 415-428): one `downloadVideoEntry`
call per entry in original order, tallying success and failure counts. The JS
loop accumulates the counters left to right; this recursion adds the head's
contribution to the tail's totals, which yields the same counts and the same
event order. Each call is marked by an `execDownload` event carrying the
entry and the item output template computed in the loop body. -/
def playlistLoop (ytDlpPath ffmpegPath : String) (userSpecifiedFileTemplate : Option String)
    (playlistFullBaseDir : String) (downloadArchive cookiesFromBrowser : Option String)
    (doShellScript : String → ShellResult) : List VideoEntry → Nat × Nat × List Event
  | [] => (0, 0, [])
  | entry :: rest =>
    let itemFileNameTemplate := jsOrD userSpecifiedFileTemplate DEFAULT_FILENAME_TEMPLATE_PLAYLIST_ITEM
    let finalItemOutputTemplate := playlistFullBaseDir ++ "/" ++ itemFileNameTemplate
    let d := downloadVideoEntry entry ytDlpPath ffmpegPath finalItemOutputTemplate
      downloadArchive cookiesFromBrowser doShellScript
    let r := playlistLoop ytDlpPath ffmpegPath userSpecifiedFileTemplate playlistFullBaseDir
      downloadArchive cookiesFromBrowser doShellScript rest
    if d.1 then (r.1 + 1, r.2.1, Event.execDownload entry finalItemOutputTemplate :: d.2 ++ r.2.2)
    else (r.1, r.2.1 + 1, Event.execDownload entry finalItemOutputTemplate :: d.2 ++ r.2.2)

/-- The body of `run` after the browser URL and both executable paths are in
hand (source lines 360-457): parse the Automator arguments, fetch metadata,
then dispatch on fetch failure / playlist / single video. -/
def runAfterPaths (env : Env) (initialUrl ytDlpPath ffmpegPath : String) : List Event :=
  let opts := parseInputArguments env.input
  let defaultBaseDownloadsPath := env.homeDownloads
  let videoInfo := getVideoOrPlaylistInfo initialUrl env.fetch
  if isFetchFailedTitle videoInfo.title then
    let fallbackEntry : VideoEntry :=
      { url := some initialUrl
        title := if containsStr videoInfo.title "失敗" then "不明な動画" else videoInfo.title
        playlist_title := none }
    let fallbackBaseDir := jsOrD opts.downloadDir defaultBaseDownloadsPath
    let fallbackFileName := jsOrD opts.fileNameTemplate DEFAULT_FILENAME_TEMPLATE_SINGLE
    let fallbackOutputTemplate := fallbackBaseDir ++ "/" ++ fallbackFileName
    Event.alert "情報取得エラー"
        ("URLから動画/プレイリスト情報の取得に失敗しました。\nタイトル: " ++ videoInfo.title ++
          "\nURL: " ++ initialUrl) "warning" ::
      Event.execDownload fallbackEntry fallbackOutputTemplate ::
      (downloadVideoEntry fallbackEntry ytDlpPath ffmpegPath fallbackOutputTemplate
        opts.downloadArchive opts.cookiesFromBrowser env.shell).2
  else if videoInfo.isPlaylist ∧ 0 < videoInfo.entries.length then
    let playlistFolderName := sanitizeFolderName (some videoInfo.title)
    let playlistParentDir := jsOrD opts.downloadDir defaultBaseDownloadsPath
    let playlistFullBaseDir := playlistParentDir ++ "/" ++ playlistFolderName
    let loopResult := playlistLoop ytDlpPath ffmpegPath opts.fileNameTemplate playlistFullBaseDir
      opts.downloadArchive opts.cookiesFromBrowser env.shell videoInfo.entries
    Event.notify "プレイリスト ダウンロード開始"
        ("プレイリスト「" ++ videoInfo.title ++ "」(" ++ toString videoInfo.entries.length ++
          "件) の処理を開始します。")
        ("保存先フォルダ: " ++ playlistFolderName ++ " (in " ++ lastAfterSlash playlistParentDir ++ ")") ::
      loopResult.2.2 ++
      [Event.notify "プレイリスト ダウンロード完了"
        ("プレイリスト「" ++ videoInfo.title ++ "」の処理が完了しました。\n成功: " ++
          toString loopResult.1 ++ "件, 失敗: " ++ toString loopResult.2.1 ++ "件")
        ("合計: " ++ toString videoInfo.entries.length ++ "件")]
  else
    let singleVideoEntry : VideoEntry :=
      { url := videoInfo.webpage_url, title := videoInfo.title, playlist_title := none }
    let singleVideoBaseDir := jsOrD opts.downloadDir defaultBaseDownloadsPath
    let singleVideoFileNameTemplate := jsOrD opts.fileNameTemplate DEFAULT_FILENAME_TEMPLATE_SINGLE
    let finalSingleOutputTemplate := singleVideoBaseDir ++ "/" ++ singleVideoFileNameTemplate
    Event.execDownload singleVideoEntry finalSingleOutputTemplate ::
      (downloadVideoEntry singleVideoEntry ytDlpPath ffmpegPath finalSingleOutputTemplate
        opts.downloadArchive opts.cookiesFromBrowser env.shell).2

/-- `run` (source lines 347-458): abort silently without a browser URL, abort
after an error dialog when either executable is unresolved, otherwise proceed. -/
def run (env : Env) : List Event :=
  match env.browserUrl with
  | none => []
  | some initialUrl =>
    match findExec env.resolve "yt-dlp" with
    | (none, ev1) => ev1
    | (some ytDlpPath, ev1) =>
      match findExec env.resolve "ffmpeg" with
      | (none, ev2) => ev1 ++ ev2
      | (some ffmpegPath, ev2) =>
        ev1 ++ ev2 ++ runAfterPaths env initialUrl ytDlpPath ffmpegPath

/-! ## Event trace observers -/

/-- The entries passed to `downloadVideoEntry`, in call order. -/
def execEntries (evs : List Event) : List VideoEntry :=
  evs.filterMap (fun e => match e with | .execDownload entry _ => some entry | _ => none)

/-- The subprocess commands issued, in order. -/
def shellCmds (evs : List Event) : List String :=
  evs.filterMap (fun e => match e with | .shellCmd c => some c | _ => none)

/-- Whether an event is a blocking dialog. -/
def isAlert (e : Event) : Bool :=
  match e with | .alert _ _ _ => true | _ => false

/-- Whether an event is one of the two batch (playlist) notifications. -/
def isPlaylistNotify (e : Event) : Bool :=
  match e with
  | .notify t _ _ => t == "プレイリスト ダウンロード開始" || t == "プレイリスト ダウンロード完了"
  | _ => false

/-- Joint output template of every playlist-loop iteration (the loop recomputes
the same value each time); used to state properties of the loop. -/
def itemOutputTemplate (playlistFullBaseDir : String) (userSpecifiedFileTemplate : Option String) : String :=
  playlistFullBaseDir ++ "/" ++ jsOrD userSpecifiedFileTemplate DEFAULT_FILENAME_TEMPLATE_PLAYLIST_ITEM

/-! ## Helper lemmas -/

theorem trimList_sublist (l : List Char) : List.Sublist (trimList l) l := by
  have h1 : List.Sublist ((l.dropWhile isJsSpace).reverse.dropWhile isJsSpace)
      (l.dropWhile isJsSpace).reverse := List.dropWhile_sublist _
  have h2 := h1.reverse
  rw [List.reverse_reverse] at h2
  exact h2.trans (List.dropWhile_sublist _)

@[simp] theorem execEntries_nil : execEntries [] = [] := rfl

@[simp] theorem execEntries_cons_notify (t m s : String) (l : List Event) :
    execEntries (.notify t m s :: l) = execEntries l := rfl

@[simp] theorem execEntries_cons_alert (t m sv : String) (l : List Event) :
    execEntries (.alert t m sv :: l) = execEntries l := rfl

@[simp] theorem execEntries_cons_shell (c : String) (l : List Event) :
    execEntries (.shellCmd c :: l) = execEntries l := rfl

@[simp] theorem execEntries_cons_exec (e : VideoEntry) (tm : String) (l : List Event) :
    execEntries (.execDownload e tm :: l) = e :: execEntries l := rfl

@[simp] theorem execEntries_append (l₁ l₂ : List Event) :
    execEntries (l₁ ++ l₂) = execEntries l₁ ++ execEntries l₂ :=
  List.filterMap_append l₁ l₂ _

@[simp] theorem shellCmds_nil : shellCmds [] = [] := rfl

@[simp] theorem shellCmds_cons_notify (t m s : String) (l : List Event) :
    shellCmds (.notify t m s :: l) = shellCmds l := rfl

@[simp] theorem shellCmds_cons_alert (t m sv : String) (l : List Event) :
    shellCmds (.alert t m sv :: l) = shellCmds l := rfl

@[simp] theorem shellCmds_cons_shell (c : String) (l : List Event) :
    shellCmds (.shellCmd c :: l) = c :: shellCmds l := rfl

@[simp] theorem shellCmds_cons_exec (e : VideoEntry) (tm : String) (l : List Event) :
    shellCmds (.execDownload e tm :: l) = shellCmds l := rfl

@[simp] theorem shellCmds_append (l₁ l₂ : List Event) :
    shellCmds (l₁ ++ l₂) = shellCmds l₁ ++ shellCmds l₂ :=
  List.filterMap_append l₁ l₂ _

@[simp] theorem isAlert_notify (t m s : String) : isAlert (.notify t m s) = false := rfl
@[simp] theorem isAlert_alert (t m sv : String) : isAlert (.alert t m sv) = true := rfl
@[simp] theorem isAlert_shell (c : String) : isAlert (.shellCmd c) = false := rfl
@[simp] theorem isAlert_exec (e : VideoEntry) (tm : String) : isAlert (.execDownload e tm) = false := rfl

@[simp] theorem isPlaylistNotify_alert (t m sv : String) : isPlaylistNotify (.alert t m sv) = false := rfl
@[simp] theorem isPlaylistNotify_shell (c : String) : isPlaylistNotify (.shellCmd c) = false := rfl
@[simp] theorem isPlaylistNotify_exec (e : VideoEntry) (tm : String) :
    isPlaylistNotify (.execDownload e tm) = false := rfl
@[simp] theorem isPlaylistNotify_dlStart (m s : String) :
    isPlaylistNotify (.notify "yt-dlp ダウンロード開始" m s) = false := rfl
@[simp] theorem isPlaylistNotify_dlOk (m s : String) :
    isPlaylistNotify (.notify "yt-dlp ダウンロード成功" m s) = false := rfl
@[simp] theorem isPlaylistNotify_dlInfo (m s : String) :
    isPlaylistNotify (.notify "yt-dlp 情報" m s) = false := rfl

/-- `downloadVideoEntry` never records an inner `execDownload` marker. -/
theorem execEntries_downloadVideoEntry (e : VideoEntry) (y f t : String) (a c : Option String)
    (sh : String → ShellResult) : execEntries (downloadVideoEntry e y f t a c sh).2 = [] := by
  by_cases h1 : isFalsyOpt e.url
  · simp [downloadVideoEntry, h1]
  · by_cases h2 : (executeShellCommand sh
        (downloadCmd (e.url.getD "") y f t a c)).exitCode = 0
    · simp [downloadVideoEntry, h1, h2]
    · by_cases h3 : ciContains (executeShellCommand sh
          (downloadCmd (e.url.getD "") y f t a c)).output "Unsupported URL"
      · simp [downloadVideoEntry, h1, h2, h3]
      · simp [downloadVideoEntry, h1, h2, h3]

/-- The playlist-irrelevant notifications of `downloadVideoEntry`. -/
theorem filter_playlistNotify_downloadVideoEntry (e : VideoEntry) (y f t : String)
    (a c : Option String) (sh : String → ShellResult) :
    (downloadVideoEntry e y f t a c sh).2.filter isPlaylistNotify = [] := by
  by_cases h1 : isFalsyOpt e.url
  · simp [downloadVideoEntry, h1]
  · by_cases h2 : (executeShellCommand sh
        (downloadCmd (e.url.getD "") y f t a c)).exitCode = 0
    · simp [downloadVideoEntry, h1, h2]
    · by_cases h3 : ciContains (executeShellCommand sh
          (downloadCmd (e.url.getD "") y f t a c)).output "Unsupported URL"
      · simp [downloadVideoEntry, h1, h2, h3]
      · simp [downloadVideoEntry, h1, h2, h3]

/-- When the entry has a usable URL, the boolean result of `downloadVideoEntry`
is exactly "the subprocess exited zero". -/
theorem downloadVideoEntry_fst (e : VideoEntry) (y f t : String) (a c : Option String)
    (sh : String → ShellResult) (h : isFalsyOpt e.url = false) :
    (downloadVideoEntry e y f t a c sh).1 =
      decide ((executeShellCommand sh (downloadCmd (e.url.getD "") y f t a c)).exitCode = 0) := by
  by_cases h2 : (executeShellCommand sh (downloadCmd (e.url.getD "") y f t a c)).exitCode = 0
  · simp [downloadVideoEntry, h, h2]
  · by_cases h3 : ciContains (executeShellCommand sh
        (downloadCmd (e.url.getD "") y f t a c)).output "Unsupported URL"
    · simp [downloadVideoEntry, h, h2, h3]
    · simp [downloadVideoEntry, h, h2, h3]

/-- The classified status is a success status exactly when the exit code is 0. -/
theorem classify_success_iff (o : String) (ec : Int) (ti : String) :
    ((classify o ec ti).status = .Success ∨ (classify o ec ti).status = .AlreadyDownloaded) ↔ ec = 0 := by
  by_cases h : ec = 0
  · simp only [classify, h, if_true]
    cases halready : alreadyDownloadedMatch o with
    | some cap => simp [halready]
    | none => simp [halready]
  · simp only [classify, h, if_false]
    by_cases h3 : ciContains o "Unsupported URL" <;> simp [h3, h]

/-- Invariants of the playlist loop: the download executor is called once per
entry in original order, the counters tally exactly the boolean outcomes, and
they sum to the number of entries. -/
theorem playlistLoop_spec (y f : String) (ut : Option String) (base : String)
    (a c : Option String) (sh : String → ShellResult) (entries : List VideoEntry) :
    execEntries (playlistLoop y f ut base a c sh entries).2.2 = entries ∧
    (playlistLoop y f ut base a c sh entries).1 =
      entries.countP (fun e => (downloadVideoEntry e y f (itemOutputTemplate base ut) a c sh).1) ∧
    (playlistLoop y f ut base a c sh entries).2.1 =
      entries.countP (fun e => !(downloadVideoEntry e y f (itemOutputTemplate base ut) a c sh).1) ∧
    (playlistLoop y f ut base a c sh entries).1 + (playlistLoop y f ut base a c sh entries).2.1 =
      entries.length := by
  induction entries with
  | nil => simp [playlistLoop]
  | cons e rest ih =>
    simp only [itemOutputTemplate] at *
    obtain ⟨ih1, ih2, ih3, ih4⟩ := ih
    by_cases hd : (downloadVideoEntry e y f
        (base ++ "/" ++ jsOrD ut DEFAULT_FILENAME_TEMPLATE_PLAYLIST_ITEM) a c sh).1
    · refine ⟨?_, ?_, ?_, ?_⟩
      · simp [playlistLoop, hd, execEntries_downloadVideoEntry, ih1]
      · simp [playlistLoop, hd, ih2, List.countP_cons]
      · simp [playlistLoop, hd, ih3, List.countP_cons]
      · simp only [playlistLoop]
        simp [hd]
        omega
    · refine ⟨?_, ?_, ?_, ?_⟩
      · simp [playlistLoop, hd, execEntries_downloadVideoEntry, ih1]
      · simp [playlistLoop, hd, ih2, List.countP_cons]
      · simp [playlistLoop, hd, ih3, List.countP_cons]
      · simp only [playlistLoop]
        simp [hd]
        omega

@[simp] theorem data_mk (l : List Char) : (String.mk l).data = l := rfl

/-! ## Claims -/

/-- C4: for every input, the sanitized folder name contains none of the
forbidden characters `/ \ : ; * ? " < > |` and is never empty: forbidden
characters are replaced by `_`, the result is whitespace-trimmed, and the
fixed placeholder `Untitled_Folder` is returned for a missing or non-string
input or an empty trimmed result. -/
theorem sanitizeFolderName_safe (s : Option String) :
    sanitizeFolderName s ≠ "" ∧ ∀ c ∈ (sanitizeFolderName s).data, c ∉ forbiddenChars := by
  match s with
  | none => exact ⟨by decide, by decide⟩
  | some str =>
    by_cases h0 : str = ""
    · subst h0; exact ⟨by decide, by decide⟩
    · by_cases ht : trimString
          (String.mk (str.data.map (fun c => if c ∈ forbiddenChars then '_' else c))) = ""
      · have heq : sanitizeFolderName (some str) = "Untitled_Folder" := by
          simp [sanitizeFolderName, h0, ht]
        rw [heq]; exact ⟨by decide, by decide⟩
      · have heq : sanitizeFolderName (some str) =
            trimString (String.mk (str.data.map (fun c => if c ∈ forbiddenChars then '_' else c))) := by
          simp [sanitizeFolderName, h0, ht]
        rw [heq]
        refine ⟨ht, ?_⟩
        intro c hc
        simp only [trimString, data_mk] at hc
        have hmem : c ∈ str.data.map (fun c => if c ∈ forbiddenChars then '_' else c) :=
          (trimList_sublist _).mem hc
        simp only [List.mem_map] at hmem
        obtain ⟨a, _, ha⟩ := hmem
        by_cases haf : a ∈ forbiddenChars
        · rw [if_pos haf] at ha; rw [← ha]; decide
        · rw [if_neg haf] at ha; rw [← ha]; exact haf

/-- C1: with a non-zero exit code, classification yields `Unsupported` exactly
when the captured output contains `Unsupported URL` case-insensitively (and the
script then reports a plain notification rather than an error dialog), and
otherwise yields `Failed` with detail equal to the entire raw output. -/
theorem classify_nonzero_exit (o : String) (ec : Int) (ti : String) (entry : VideoEntry)
    (y f t : String) (a c : Option String) (sh : String → ShellResult)
    (h : ec ≠ 0) (hurl : isFalsyOpt entry.url = false)
    (hexit : (executeShellCommand sh (downloadCmd (entry.url.getD "") y f t a c)).exitCode = ec)
    (hout : (executeShellCommand sh (downloadCmd (entry.url.getD "") y f t a c)).output = o) :
    classify o ec ti =
      (if ciContains o "Unsupported URL" = true then ⟨.Unsupported, ""⟩ else ⟨.Failed, o⟩) ∧
    (ciContains o "Unsupported URL" = true ↔ toLowerList "Unsupported URL" <:+: toLowerList o) ∧
    ((downloadVideoEntry entry y f t a c sh).2.filter isAlert = [] ↔
      ciContains o "Unsupported URL" = true) := by
  refine ⟨?_, ?_, ?_⟩
  · by_cases h3 : ciContains o "Unsupported URL"
    · simp [classify, h, h3]
    · simp [classify, h, h3]
  · simp [ciContains]
  · have hz : ¬ (executeShellCommand sh (downloadCmd (entry.url.getD "") y f t a c)).exitCode = 0 := by
      rw [hexit]; exact h
    by_cases h3 : ciContains o "Unsupported URL"
    · simp [downloadVideoEntry, hurl, hz, hout, h3]
    · simp [downloadVideoEntry, hurl, hz, hout, h3]

/-- Witness for `classify_nonzero_exit` at a concrete unsupported-URL output. -/
theorem classify_nonzero_exit_witness :
    classify "ERROR: unsupported URL: https://x.example" 1 "v" =
      (if ciContains "ERROR: unsupported URL: https://x.example" "Unsupported URL" = true
       then ⟨.Unsupported, ""⟩ else ⟨.Failed, "ERROR: unsupported URL: https://x.example"⟩) ∧
    (ciContains "ERROR: unsupported URL: https://x.example" "Unsupported URL" = true ↔
      toLowerList "Unsupported URL" <:+: toLowerList "ERROR: unsupported URL: https://x.example") ∧
    ((downloadVideoEntry ⟨some "u", "v", none⟩ "yt" "ff" "tm" none none
        (fun _ => ⟨"ERROR: unsupported URL: https://x.example", 1⟩)).2.filter isAlert = [] ↔
      ciContains "ERROR: unsupported URL: https://x.example" "Unsupported URL" = true) :=
  classify_nonzero_exit "ERROR: unsupported URL: https://x.example" 1 "v" ⟨some "u", "v", none⟩
    "yt" "ff" "tm" none none (fun _ => ⟨"ERROR: unsupported URL: https://x.example", 1⟩)
    (by decide) (by decide) rfl rfl

/-- C2 counterexample: for output `[download] / has already been downloaded`
the captured name is `/`, whose part after the last `/` is empty, yet the
code's detail is the item's known title (the `|| entryTitle` fallback), not
that empty basename. -/
theorem classify_already_basename_counterexample :
    classify "[download] / has already been downloaded" 0 "video" =
      ⟨.AlreadyDownloaded, "video"⟩ ∧
    (classify "[download] / has already been downloaded" 0 "video").detail ≠ "" := by
  exact ⟨by decide, by decide⟩

/-- C2 (amended): with exit code 0, if the output matches
`[download] <name> has already been downloaded` the outcome is
`AlreadyDownloaded` with detail the whitespace-trimmed part of `<name>` after
its last `/`, falling back to the item's known title when that is empty;
otherwise the outcome is `Success` with detail the item's known title. In
particular, for output `[download] foo.mp4 has already been downloaded` the
captured name and the detail are `foo.mp4`. -/
theorem classify_zero_exit (o : String) (ec : Int) (ti : String) (h : ec = 0) :
    classify o ec ti =
      (match alreadyDownloadedMatch o with
       | some cap =>
         ⟨.AlreadyDownloaded,
           if trimString (lastAfterSlash cap) = "" then ti else trimString (lastAfterSlash cap)⟩
       | none => ⟨.Success, ti⟩) ∧
    alreadyDownloadedMatch "[download] foo.mp4 has already been downloaded" = some "foo.mp4" ∧
    (classify "[download] foo.mp4 has already been downloaded" 0 ti).detail = "foo.mp4" := by
  subst h
  refine ⟨?_, by decide, ?_⟩
  · cases halready : alreadyDownloadedMatch o with
    | some cap => simp [classify, halready]
    | none => simp [classify, halready]
  · have h1 : alreadyDownloadedMatch "[download] foo.mp4 has already been downloaded" =
        some "foo.mp4" := by decide
    have h2 : trimString (lastAfterSlash "foo.mp4") = "foo.mp4" := by decide
    simp [classify, h1, h2]

/-- Witness for `classify_zero_exit` at a concrete path-bearing output. -/
theorem classify_zero_exit_witness :
    classify "[download] a/b.mp4 has already been downloaded" 0 "T" =
      (match alreadyDownloadedMatch "[download] a/b.mp4 has already been downloaded" with
       | some cap =>
         ⟨.AlreadyDownloaded,
           if trimString (lastAfterSlash cap) = "" then "T" else trimString (lastAfterSlash cap)⟩
       | none => ⟨.Success, "T"⟩) ∧
    alreadyDownloadedMatch "[download] foo.mp4 has already been downloaded" = some "foo.mp4" ∧
    (classify "[download] foo.mp4 has already been downloaded" 0 "T").detail = "foo.mp4" :=
  classify_zero_exit "[download] a/b.mp4 has already been downloaded" 0 "T" rfl

/-- C10 counterexample: `-d` occurs as the last token with no following value,
yet `downloadDir` is not null — an earlier `-d x` pair already set it, and the
trailing flag merely sets nothing. -/
theorem parseInputArguments_trailing_counterexample :
    (parseInputArguments (some ["-d", "x", "-d"])).downloadDir = some "x" ∧
    (parseInputArguments (some ["-d", "x", "-d"])).downloadDir ≠ none :=
  ⟨by decide, by decide⟩

/-- C10 (amended): when the scanner reaches a lone final token — in particular
a recognized flag with no following value — it sets nothing, leaving every
option as the earlier tokens left it (null when nothing set it); a trailing
flag can instead be consumed as the value of an immediately preceding flag;
and a non-array input leaves all four options null. -/
theorem parseInputArguments_trailing_flag :
    (∀ (x : String) (acc : ParsedArgs), parseLoop [x] acc = acc) ∧
    parseInputArguments none = ⟨none, none, none, none⟩ ∧
    parseInputArguments (some ["-d"]) = ⟨none, none, none, none⟩ ∧
    parseInputArguments (some ["-f"]) = ⟨none, none, none, none⟩ ∧
    parseInputArguments (some ["-a"]) = ⟨none, none, none, none⟩ ∧
    parseInputArguments (some ["-c"]) = ⟨none, none, none, none⟩ ∧
    parseInputArguments (some ["-d", "x", "-d"]) = ⟨some "x", none, none, none⟩ ∧
    parseInputArguments (some ["-f", "-d"]) = ⟨none, some "-d", none, none⟩ :=
  ⟨fun _ _ => rfl, rfl, by decide, by decide, by decide, by decide, by decide, by decide⟩

/-- The boolean outcome of one download attempt matches the classifier: a
usable URL and a classified `Success` or `AlreadyDownloaded` status. -/
theorem downloadVideoEntry_fst_classify (e : VideoEntry) (y f t : String) (a c : Option String)
    (sh : String → ShellResult) :
    (downloadVideoEntry e y f t a c sh).1 =
      (!(isFalsyOpt e.url) &&
        (let r := executeShellCommand sh (downloadCmd (e.url.getD "") y f t a c)
         decide ((classify r.output r.exitCode (if e.title = "" then "無題の動画" else e.title)).status = .Success ∨
           (classify r.output r.exitCode (if e.title = "" then "無題の動画" else e.title)).status = .AlreadyDownloaded))) := by
  by_cases hurl : isFalsyOpt e.url
  · simp [downloadVideoEntry, hurl]
  · have hurl' : isFalsyOpt e.url = false := by simp [hurl]
    rw [downloadVideoEntry_fst e y f t a c sh hurl']
    simp only [hurl', Bool.not_false, Bool.true_and]
    simp [classify_success_iff]

/-- The batch invariant of the playlist loop: one executor call per entry in
original order; the success counter counts exactly the entries whose attempt
classifies as `Success` or `AlreadyDownloaded`, the failure counter all
others; and the counters sum to the number of entries. -/
def batchInvariant (entries : List VideoEntry) (y f : String) (ut : Option String) (base : String)
    (a c : Option String) (sh : String → ShellResult) : Prop :=
  execEntries (playlistLoop y f ut base a c sh entries).2.2 = entries ∧
  (playlistLoop y f ut base a c sh entries).1 + (playlistLoop y f ut base a c sh entries).2.1 =
    entries.length ∧
  (playlistLoop y f ut base a c sh entries).1 =
    entries.countP (fun e =>
      !(isFalsyOpt e.url) &&
        (let r := executeShellCommand sh (downloadCmd (e.url.getD "") y f (itemOutputTemplate base ut) a c)
         decide ((classify r.output r.exitCode (if e.title = "" then "無題の動画" else e.title)).status = .Success ∨
           (classify r.output r.exitCode (if e.title = "" then "無題の動画" else e.title)).status = .AlreadyDownloaded))) ∧
  (playlistLoop y f ut base a c sh entries).2.1 =
    entries.countP (fun e =>
      !(!(isFalsyOpt e.url) &&
        (let r := executeShellCommand sh (downloadCmd (e.url.getD "") y f (itemOutputTemplate base ut) a c)
         decide ((classify r.output r.exitCode (if e.title = "" then "無題の動画" else e.title)).status = .Success ∨
           (classify r.output r.exitCode (if e.title = "" then "無題の動画" else e.title)).status = .AlreadyDownloaded))))

/-- C3: for a collection with at least one member entry, the batch loop calls
the download executor exactly once per entry in original index order, each
outcome increments exactly one of the two counters (successes being the
`Success`/`AlreadyDownloaded` classifications), and the counters sum to the
number of entries. -/
theorem batch_aggregator_invariant (entries : List VideoEntry) (y f : String) (ut : Option String)
    (base : String) (a c : Option String) (sh : String → ShellResult)
    (_h : 1 ≤ entries.length) :
    batchInvariant entries y f ut base a c sh := by
  obtain ⟨h1, h2, h3, h4⟩ := playlistLoop_spec y f ut base a c sh entries
  refine ⟨h1, h4, ?_, ?_⟩
  · rw [h2]
    refine List.countP_congr (fun e _ => ?_)
    rw [downloadVideoEntry_fst_classify e y f (itemOutputTemplate base ut) a c sh]
  · rw [h3]
    refine List.countP_congr (fun e _ => ?_)
    rw [downloadVideoEntry_fst_classify e y f (itemOutputTemplate base ut) a c sh]

/-- Witness for `batch_aggregator_invariant` on a one-entry collection. -/
theorem batch_aggregator_invariant_witness :
    1 ≤ ([({ url := some "https://e.example/v", title := "t", playlist_title := none } : VideoEntry)]).length ∧
    batchInvariant [{ url := some "https://e.example/v", title := "t", playlist_title := none }]
      "/bin/yt-dlp" "/bin/ffmpeg" none "/tmp/base" none none (fun _ => ⟨"done", 0⟩) :=
  ⟨by decide,
   batch_aggregator_invariant [{ url := some "https://e.example/v", title := "t", playlist_title := none }]
     "/bin/yt-dlp" "/bin/ffmpeg" none "/tmp/base" none none (fun _ => ⟨"done", 0⟩) (by decide)⟩

/-- C8: an item whose URL is absent is failed locally — `downloadVideoEntry`
returns `false` after a single warning dialog and never invokes the
subprocess — and in a batch containing such an item every entry is still
processed. -/
theorem missing_url_skips_one_item (entry : VideoEntry) (y f t : String) (a c : Option String)
    (sh : String → ShellResult) (entries : List VideoEntry) (ut : Option String) (base : String)
    (h : isFalsyOpt entry.url = true) (_hmem : entry ∈ entries) :
    downloadVideoEntry entry y f t a c sh =
      (false, [.alert "ダウンロードエラー"
        ("動画「" ++ (if entry.title = "" then "無題の動画" else entry.title) ++
          "」のURLが見つかりません。スキップします。") "warning"]) ∧
    shellCmds (downloadVideoEntry entry y f t a c sh).2 = [] ∧
    execEntries (playlistLoop y f ut base a c sh entries).2.2 = entries := by
  have hdl : downloadVideoEntry entry y f t a c sh =
      (false, [.alert "ダウンロードエラー"
        ("動画「" ++ (if entry.title = "" then "無題の動画" else entry.title) ++
          "」のURLが見つかりません。スキップします。") "warning"]) := by
    simp [downloadVideoEntry, h]
  exact ⟨hdl, by rw [hdl]; simp, (playlistLoop_spec y f ut base a c sh entries).1⟩

/-- Witness for `missing_url_skips_one_item`: a two-entry batch whose first
entry has no URL. -/
theorem missing_url_skips_one_item_witness :
    downloadVideoEntry ⟨none, "t1", none⟩ "/bin/yt-dlp" "/bin/ffmpeg" "/tmp/o" none none
        (fun _ => ⟨"", 0⟩) =
      (false, [.alert "ダウンロードエラー"
        ("動画「" ++ (if ("t1" : String) = "" then "無題の動画" else "t1") ++
          "」のURLが見つかりません。スキップします。") "warning"]) ∧
    shellCmds (downloadVideoEntry ⟨none, "t1", none⟩ "/bin/yt-dlp" "/bin/ffmpeg" "/tmp/o" none none
        (fun _ => ⟨"", 0⟩)).2 = [] ∧
    execEntries (playlistLoop "/bin/yt-dlp" "/bin/ffmpeg" none "/tmp/base" none none
        (fun _ => ⟨"", 0⟩)
        [⟨none, "t1", none⟩, ⟨some "https://e.example/v2", "t2", none⟩]).2.2 =
      [⟨none, "t1", none⟩, ⟨some "https://e.example/v2", "t2", none⟩] :=
  missing_url_skips_one_item ⟨none, "t1", none⟩ "/bin/yt-dlp" "/bin/ffmpeg" "/tmp/o" none none
    (fun _ => ⟨"", 0⟩) [⟨none, "t1", none⟩, ⟨some "https://e.example/v2", "t2", none⟩] none
    "/tmp/base" (by decide) (by decide)

/-- C9: when metadata resolution reports a collection but with an empty entry
list, `run` never enters the batch loop and emits no batch start/completion
notification; it dispatches exactly one single-item download addressing the
unit's canonical `webpage_url` and title. -/
theorem single_dispatch_on_empty_playlist (env : Env) (u y fp : String)
    (hb : env.browserUrl = some u)
    (hy : env.resolve "yt-dlp" = some y)
    (hf : env.resolve "ffmpeg" = some fp)
    (hfail : isFetchFailedTitle (getVideoOrPlaylistInfo u env.fetch).title = false)
    (_hpl : (getVideoOrPlaylistInfo u env.fetch).isPlaylist = true)
    (hent : (getVideoOrPlaylistInfo u env.fetch).entries = []) :
    run env =
      Event.execDownload
        ⟨(getVideoOrPlaylistInfo u env.fetch).webpage_url,
          (getVideoOrPlaylistInfo u env.fetch).title, none⟩
        (jsOrD (parseInputArguments env.input).downloadDir env.homeDownloads ++ "/" ++
          jsOrD (parseInputArguments env.input).fileNameTemplate DEFAULT_FILENAME_TEMPLATE_SINGLE) ::
      (downloadVideoEntry
        ⟨(getVideoOrPlaylistInfo u env.fetch).webpage_url,
          (getVideoOrPlaylistInfo u env.fetch).title, none⟩
        y fp
        (jsOrD (parseInputArguments env.input).downloadDir env.homeDownloads ++ "/" ++
          jsOrD (parseInputArguments env.input).fileNameTemplate DEFAULT_FILENAME_TEMPLATE_SINGLE)
        (parseInputArguments env.input).downloadArchive
        (parseInputArguments env.input).cookiesFromBrowser env.shell).2 ∧
    (run env).filter isPlaylistNotify = [] ∧
    execEntries (run env) =
      [⟨(getVideoOrPlaylistInfo u env.fetch).webpage_url,
        (getVideoOrPlaylistInfo u env.fetch).title, none⟩] := by
  have hrun : run env =
      Event.execDownload
        ⟨(getVideoOrPlaylistInfo u env.fetch).webpage_url,
          (getVideoOrPlaylistInfo u env.fetch).title, none⟩
        (jsOrD (parseInputArguments env.input).downloadDir env.homeDownloads ++ "/" ++
          jsOrD (parseInputArguments env.input).fileNameTemplate DEFAULT_FILENAME_TEMPLATE_SINGLE) ::
      (downloadVideoEntry
        ⟨(getVideoOrPlaylistInfo u env.fetch).webpage_url,
          (getVideoOrPlaylistInfo u env.fetch).title, none⟩
        y fp
        (jsOrD (parseInputArguments env.input).downloadDir env.homeDownloads ++ "/" ++
          jsOrD (parseInputArguments env.input).fileNameTemplate DEFAULT_FILENAME_TEMPLATE_SINGLE)
        (parseInputArguments env.input).downloadArchive
        (parseInputArguments env.input).cookiesFromBrowser env.shell).2 := by
    simp only [run, hb, findExec, hy, hf, List.nil_append]
    simp only [runAfterPaths, hfail, hent]
    simp
  refine ⟨hrun, ?_, ?_⟩
  · rw [hrun]
    simp [filter_playlistNotify_downloadVideoEntry]
  · rw [hrun]
    simp [execEntries_downloadVideoEntry]

/-- A resolver oracle on which both executables are found. -/
def resolveBoth : String → Option String := fun name =>
  if name = "yt-dlp" then some "/opt/homebrew/bin/yt-dlp"
  else if name = "ffmpeg" then some "/opt/homebrew/bin/ffmpeg"
  else none

/-- A shell oracle whose every command succeeds with empty output. -/
def shellOk : String → ShellResult := fun _ => ⟨"", 0⟩

/-- An environment whose metadata fetch yields a playlist object with an empty
`entries` array. -/
def envEmptyPlaylist : Env :=
  ⟨some "https://e.example/list", resolveBoth, some [], "/Users/user/Downloads",
    .ok ⟨some "playlist", some "P", some "https://e.example/canon", some []⟩, shellOk⟩

/-- Witness for `single_dispatch_on_empty_playlist` on `envEmptyPlaylist`. -/
theorem single_dispatch_on_empty_playlist_witness :
    run envEmptyPlaylist =
      Event.execDownload
        ⟨(getVideoOrPlaylistInfo "https://e.example/list" envEmptyPlaylist.fetch).webpage_url,
          (getVideoOrPlaylistInfo "https://e.example/list" envEmptyPlaylist.fetch).title, none⟩
        (jsOrD (parseInputArguments envEmptyPlaylist.input).downloadDir envEmptyPlaylist.homeDownloads ++
          "/" ++ jsOrD (parseInputArguments envEmptyPlaylist.input).fileNameTemplate
            DEFAULT_FILENAME_TEMPLATE_SINGLE) ::
      (downloadVideoEntry
        ⟨(getVideoOrPlaylistInfo "https://e.example/list" envEmptyPlaylist.fetch).webpage_url,
          (getVideoOrPlaylistInfo "https://e.example/list" envEmptyPlaylist.fetch).title, none⟩
        "/opt/homebrew/bin/yt-dlp" "/opt/homebrew/bin/ffmpeg"
        (jsOrD (parseInputArguments envEmptyPlaylist.input).downloadDir envEmptyPlaylist.homeDownloads ++
          "/" ++ jsOrD (parseInputArguments envEmptyPlaylist.input).fileNameTemplate
            DEFAULT_FILENAME_TEMPLATE_SINGLE)
        (parseInputArguments envEmptyPlaylist.input).downloadArchive
        (parseInputArguments envEmptyPlaylist.input).cookiesFromBrowser envEmptyPlaylist.shell).2 ∧
    (run envEmptyPlaylist).filter isPlaylistNotify = [] ∧
    execEntries (run envEmptyPlaylist) =
      [⟨(getVideoOrPlaylistInfo "https://e.example/list" envEmptyPlaylist.fetch).webpage_url,
        (getVideoOrPlaylistInfo "https://e.example/list" envEmptyPlaylist.fetch).title, none⟩] :=
  single_dispatch_on_empty_playlist envEmptyPlaylist "https://e.example/list"
    "/opt/homebrew/bin/yt-dlp" "/opt/homebrew/bin/ffmpeg" rfl (by decide) (by decide)
    (by decide) (by decide) (by decide)

/-- A resolver oracle that finds the downloader but not the transcoding helper. -/
def resolveNoFfmpeg : String → Option String := fun name =>
  if name = "yt-dlp" then some "/opt/homebrew/bin/yt-dlp" else none

/-- An environment in which `ffmpeg` cannot be resolved. -/
def envNoFfmpeg : Env :=
  ⟨some "https://e.example/v", resolveNoFfmpeg, some [], "/Users/user/Downloads", .cmdFailed, shellOk⟩

/-- C6 counterexample: with `ffmpeg` unresolved the run does not proceed
without it — it stops at the `ffmpeg` error dialog, attempting no download
and launching no subprocess. -/
theorem ffmpeg_missing_aborts_counterexample :
    run envNoFfmpeg =
      [.alert "ffmpeg 実行エラー"
        "ffmpeg が見つかりませんでした。\n\nHomebrew等で ffmpeg が正しくインストールされているか確認してください。"
        "critical"] ∧
    execEntries (run envNoFfmpeg) = [] ∧ shellCmds (run envNoFfmpeg) = [] :=
  ⟨by decide, by decide, by decide⟩

/-- C6 (amended): failure to resolve either executable — the downloader or the
transcoding helper — aborts the run with exactly one blocking alert before any
download is attempted or any subprocess launched. -/
theorem executable_missing_aborts (env : Env) (u : String)
    (hb : env.browserUrl = some u)
    (h : env.resolve "yt-dlp" = none ∨ env.resolve "ffmpeg" = none) :
    execEntries (run env) = [] ∧ shellCmds (run env) = [] ∧ (run env).countP isAlert = 1 := by
  rcases h with h | h
  · have hrun : run env = (findExec env.resolve "yt-dlp").2 := by
      simp only [run, hb, findExec, h]
    rw [hrun]
    simp [findExec, h]
  · cases hy : env.resolve "yt-dlp" with
    | none =>
      have hrun : run env = (findExec env.resolve "yt-dlp").2 := by
        simp only [run, hb, findExec, hy]
      rw [hrun]
      simp [findExec, hy]
    | some y =>
      have hrun : run env = (findExec env.resolve "ffmpeg").2 := by
        simp only [run, hb, findExec, hy, h]
        simp
      rw [hrun]
      simp [findExec, h]

/-- Witness for `executable_missing_aborts` on `envNoFfmpeg`. -/
theorem executable_missing_aborts_witness :
    execEntries (run envNoFfmpeg) = [] ∧ shellCmds (run envNoFfmpeg) = [] ∧
    (run envNoFfmpeg).countP isAlert = 1 :=
  executable_missing_aborts envNoFfmpeg "https://e.example/v" rfl (Or.inr (by decide))

/-- An environment whose metadata fetch hits the unexpected-exception branch. -/
def envException : Env :=
  ⟨some "https://e.example/v", resolveBoth, some [], "/Users/user/Downloads", .exception, shellOk⟩

/-- An environment whose metadata command fails (non-zero exit or empty output). -/
def envCmdFailed : Env :=
  ⟨some "https://e.example/v", resolveBoth, some [], "/Users/user/Downloads", .cmdFailed, shellOk⟩

/-- Whether an event is the metadata-fetch-failure warning dialog of `run`. -/
def isInfoFetchAlert (e : Event) : Bool :=
  match e with | .alert t _ _ => t == "情報取得エラー" | _ => false

/-- C5: the fetcher defines three sentinel titles, but the caller's check
(`includes("取得失敗") || includes("パース失敗")`) misses the exception sentinel
`タイトル情報取得エラー`: on that sentinel `run` surfaces no fetch-failure warning
and dispatches the sentinel-titled unit as a normal single video, while the
two detected sentinels do trigger the warning-and-fallback path. -/
theorem fetch_error_sentinel_missed :
    isFetchFailedTitle "タイトル情報取得失敗" = true ∧
    isFetchFailedTitle "タイトル情報パース失敗" = true ∧
    isFetchFailedTitle "タイトル情報取得エラー" = false ∧
    (getVideoOrPlaylistInfo "https://e.example/v" FetchResult.exception).title =
      "タイトル情報取得エラー" ∧
    (run envException).filter isInfoFetchAlert = [] ∧
    execEntries (run envException) = [⟨some "https://e.example/v", "タイトル情報取得エラー", none⟩] ∧
    (run envCmdFailed).countP isInfoFetchAlert = 1 ∧
    execEntries (run envCmdFailed) = [⟨some "https://e.example/v", "不明な動画", none⟩] :=
  ⟨by decide, by decide, by decide, by decide, by decide, by decide, by decide, by decide⟩

/-- `mapWithIndexFrom` over a mapped list composes the functions. -/
theorem mapWithIndexFrom_map (f : Nat → β → γ) (g : α → β) (i : Nat) (l : List α) :
    mapWithIndexFrom f i (l.map g) = mapWithIndexFrom (fun n a => f n (g a)) i l := by
  induction l generalizing i with
  | nil => rfl
  | cons a l ih => simp [mapWithIndexFrom, List.map_cons, ih]

/-- The playlist entry mapping passes each raw `url` through unchanged. -/
theorem map_url_mapWithIndexFrom (i : Nat) (l : List RawEntry) :
    (mapWithIndexFrom
      (fun index entry =>
        ({ url := entry.url
           title := jsOrD entry.title ("無題の動画 " ++ toString (index + 1))
           playlist_title := none } : VideoEntry)) i l).map (fun e => e.url) =
      l.map (fun e => e.url) := by
  induction l generalizing i with
  | nil => rfl
  | cons a l ih => simp [mapWithIndexFrom, ih]

/-- A metadata playlist whose single entry has an `id` but no `url`. -/
def infoIdOnly : ParsedInfo :=
  ⟨some "playlist", some "P", some "https://e.example/list",
    some [⟨none, some "T", some "abc"⟩]⟩

/-- C7 counterexample: for a member entry with `id` present but no URL, the
resulting item has no URL at all — nothing is reconstructed from the fixed
watch-URL template. -/
theorem playlist_entry_id_counterexample :
    (getVideoOrPlaylistInfo "https://e.example/list" (.ok infoIdOnly)).entries =
      [⟨none, "T", none⟩] ∧
    (getVideoOrPlaylistInfo "https://e.example/list" (.ok infoIdOnly)).entries.map
        (fun e => e.url) ≠ [some "https://www.youtube.com/watch?v=abc"] :=
  ⟨by decide, by decide⟩

/-- Erase the `id` field of every member entry of a metadata object. -/
def eraseEntryIds (info : ParsedInfo) : ParsedInfo :=
  { info with entries := info.entries.map (fun l => l.map (fun e => { e with id := none })) }

/-- C7 (amended): the dispatch URL of every collection member is the entry's
raw `url` field verbatim, and the member `id` fields are never consulted:
erasing them leaves the resolved `MediaUnit` unchanged. -/
theorem playlist_entry_url_verbatim (targetUrl : String) (info : ParsedInfo)
    (h : info._type = some "playlist" ∨ info.entries.isSome) :
    (getVideoOrPlaylistInfo targetUrl (.ok info)).entries.map (fun e => e.url) =
      (info.entries.getD []).map (fun e => e.url) ∧
    getVideoOrPlaylistInfo targetUrl (.ok (eraseEntryIds info)) =
      getVideoOrPlaylistInfo targetUrl (.ok info) := by
  have hcond' : (eraseEntryIds info)._type = some "playlist" ∨ (eraseEntryIds info).entries.isSome := by
    rcases h with h | h
    · exact Or.inl h
    · right
      simp [eraseEntryIds, Option.isSome_map]
      cases hent : info.entries with
      | none => rw [hent] at h; simp at h
      | some l => simp
  constructor
  · simp only [getVideoOrPlaylistInfo]
    rw [if_pos h]
    exact map_url_mapWithIndexFrom 0 (info.entries.getD [])
  · simp only [getVideoOrPlaylistInfo]
    rw [if_pos hcond', if_pos h]
    cases hent : info.entries with
    | none => simp [eraseEntryIds, hent]
    | some l =>
      simp [eraseEntryIds, hent, mapWithIndexFrom_map]

/-- Witness for `playlist_entry_url_verbatim` on `infoIdOnly`. -/
theorem playlist_entry_url_verbatim_witness :
    (getVideoOrPlaylistInfo "https://e.example/list" (.ok infoIdOnly)).entries.map (fun e => e.url) =
      (infoIdOnly.entries.getD []).map (fun e => e.url) ∧
    getVideoOrPlaylistInfo "https://e.example/list" (.ok (eraseEntryIds infoIdOnly)) =
      getVideoOrPlaylistInfo "https://e.example/list" (.ok infoIdOnly) :=
  playlist_entry_url_verbatim "https://e.example/list" infoIdOnly (Or.inl rfl)
